import Mathlib

/-!
Verification of the Real-Time Interview Coaching System.

The repository has two parts:

* a React/TypeScript frontend (`InterviewContext.tsx`, `Interview.tsx`,
  `Report.tsx`, `SpeechTest.tsx`) handling sessions, scoring fallbacks and
  report persistence — embedded here directly from the source;
* a Python body-language analyzer (`small_interview_helper.py`) that does
  head-pose estimation, gaze classification, blink detection and confidence
  aggregation.  That file is not part of the sources available here (only the
  README documents it), so its components are modelled from the spec, each
  such definition carrying a `Modelled from the spec:` doc comment.

Rationals stand in for the floating-point numbers of both languages; reals
are used where a Euclidean norm (square root) is required.
-/

/- ----------------------------------------------------------------
   Confidence aggregator (spec §4.6)
   ---------------------------------------------------------------- -/

/-- Modelled from the spec: the Confidence Aggregator of
`small_interview_helper.py` (missing from the sources), spec §4.6:
`ConfidenceScore = (AttentionScore + BlinkScore + EmotionScore) / 3`. -/
def confidenceScore (attention blink emotion : ℚ) : ℚ :=
  (attention + blink + emotion) / 3

/- ----------------------------------------------------------------
   Gaze classifier (spec §4.4)
   ---------------------------------------------------------------- -/

/-- Modelled from the spec: the Gaze Classifier of
`small_interview_helper.py` (missing from the sources), spec §4.4:
`isEyeContact = |yaw_smoothed| <= 25 AND |pitch_smoothed| <= 20`
(degrees), a pure function of the smoothed pose. -/
def isEyeContact (yawSmoothed pitchSmoothed : ℚ) : Bool :=
  |yawSmoothed| ≤ 25 ∧ |pitchSmoothed| ≤ 20

/- ----------------------------------------------------------------
   Fixed-capacity sliding windows (spec §4.3, §3 AttentionWindow)
   ---------------------------------------------------------------- -/

/-- Modelled from the spec: the fixed-capacity sliding-window insert used by
`small_interview_helper.py` (missing from the sources) for both the 5-entry
pose-smoothing queues and the 150-entry attention window (spec §3, §4.3):
append the new sample, evicting the oldest when the window is full. -/
def dequePush {α : Type} (cap : Nat) (w : List α) (x : α) : List α :=
  if w.length < cap then w ++ [x] else w.drop 1 ++ [x]

/-- Insert a whole stream of samples, oldest first, into an initially empty
window of capacity `cap`. -/
def dequeRun {α : Type} (cap : Nat) (xs : List α) : List α :=
  xs.foldl (dequePush cap) []

theorem dequeRun_append_singleton {α : Type} (cap : Nat) (ys : List α) (x : α) :
    dequeRun cap (ys ++ [x]) = dequePush cap (dequeRun cap ys) x := by
  simp [dequeRun, List.foldl_append]

/-- A window run from empty holds exactly the last `cap` samples (all of them
while fewer than `cap` have arrived). -/
theorem dequeRun_eq_drop {α : Type} (cap : Nat) (hcap : 0 < cap) (xs : List α) :
    dequeRun cap xs = xs.drop (xs.length - cap) := by
  induction xs using List.reverseRecOn with
  | nil => simp [dequeRun]
  | append_singleton ys x ih =>
    rw [dequeRun_append_singleton, ih, dequePush]
    by_cases h : ys.length < cap
    · have h0 : ys.length - cap = 0 := by omega
      have h1 : ys.length + 1 - cap = 0 := by omega
      simp [h0, h1, h]
    · have hlen : (ys.drop (ys.length - cap)).length = cap := by
        rw [List.length_drop]; omega
      have hlt : ¬ (ys.drop (ys.length - cap)).length < cap := by omega
      rw [if_neg hlt, List.drop_drop]
      have harith : (ys ++ [x]).length - cap = (1 + (ys.length - cap)) := by
        simp only [List.length_append, List.length_singleton]; omega
      rw [harith, List.drop_append_of_le_length (by omega)]
      have hc : 1 + (ys.length - cap) = ys.length - cap + 1 := by omega
      rw [hc]

/-- The number of retained samples is the stream length capped at `cap`. -/
theorem dequeRun_length {α : Type} (cap : Nat) (hcap : 0 < cap) (xs : List α) :
    (dequeRun cap xs).length = min xs.length cap := by
  rw [dequeRun_eq_drop cap hcap, List.length_drop]; omega

/- ----------------------------------------------------------------
   Temporal smoother (spec §4.3)
   ---------------------------------------------------------------- -/

/-- Arithmetic mean of the current queue contents. -/
def smoothMean (q : List ℚ) : ℚ :=
  q.sum / q.length

/-- Modelled from the spec: the Temporal Smoother of
`small_interview_helper.py` (missing from the sources), spec §4.3: a 5-entry
queue per angle channel; each new sample is pushed (evicting the oldest when
full) and the output is the arithmetic mean of the queue contents. -/
def smoothOutput (xs : List ℚ) : ℚ :=
  smoothMean (dequeRun 5 xs)

/- ----------------------------------------------------------------
   Claims C1 - C4
   ---------------------------------------------------------------- -/

/-- Claim C1: the Confidence Aggregator returns
`(AttentionScore + BlinkScore + EmotionScore) / 3`; inputs `(1,1,1)` give
exactly `1`, `(0,0,0)` give exactly `0`, and `(0.6, 0.8, 1.0)` give exactly
`0.8`. -/
theorem confidence_aggregator_formula :
    (∀ a b e : ℚ, confidenceScore a b e = (a + b + e) / 3)
    ∧ confidenceScore 1 1 1 = 1
    ∧ confidenceScore 0 0 0 = 0
    ∧ confidenceScore (6/10) (8/10) 1 = 8/10 := by
  refine ⟨fun a b e => rfl, ?_, ?_, ?_⟩ <;> norm_num [confidenceScore]

/-- Claim C2: the AttentionWindow never exceeds its capacity 150; after more
than 150 insertions its length is exactly 150, and a sentinel inserted first
and followed by 151 further insertions is no longer present (here the
sentinel is `true`, followed by 151 `false` samples). -/
theorem attention_window_capacity :
    (∀ xs : List Bool, (dequeRun 150 xs).length ≤ 150)
    ∧ (∀ xs : List Bool, 150 < xs.length → (dequeRun 150 xs).length = 150)
    ∧ dequeRun 150 (true :: List.replicate 151 false) = List.replicate 150 false
    ∧ true ∉ dequeRun 150 (true :: List.replicate 151 false) := by
  have h150 : (0:ℕ) < 150 := by norm_num
  have hsent : dequeRun 150 (true :: List.replicate 151 false)
      = List.replicate 150 false := by
    rw [dequeRun_eq_drop 150 h150]
    simp [List.drop_replicate]
  refine ⟨fun xs => ?_, fun xs hx => ?_, hsent, ?_⟩
  · rw [dequeRun_length 150 h150]; omega
  · rw [dequeRun_length 150 h150]; omega
  · rw [hsent]
    simp [List.mem_replicate]

/-- Claim C2 witness: a concrete stream of 152 samples whose window has
length exactly 150. -/
theorem attention_window_capacity_witness :
    150 < (true :: List.replicate 151 false).length
    ∧ (dequeRun 150 (true :: List.replicate 151 false)).length = 150 :=
  ⟨by simp, attention_window_capacity.2.1 _ (by simp)⟩

/-- Claim C3: the Gaze Classifier returns
`isEyeContact = (|yaw| ≤ 25 ∧ |pitch| ≤ 20)`, is a pure function of the
smoothed pose (it is a function of exactly those two arguments), and with
pitch 0 it is true at yaw 24.9 and false at yaw 25.1. -/
theorem gaze_classifier_contract :
    (∀ y p : ℚ, isEyeContact y p = true ↔ (|y| ≤ 25 ∧ |p| ≤ 20))
    ∧ isEyeContact (249/10) 0 = true
    ∧ isEyeContact (251/10) 0 = false := by
  refine ⟨fun y p => ?_, ?_, ?_⟩
  · simp [isEyeContact]
  · norm_num [isEyeContact, abs_le]
  · norm_num [isEyeContact, abs_le]

/-- Claim C4: the Temporal Smoother outputs the arithmetic mean of at most
the last 5 samples, the output is the mean over however many samples are
present when fewer than 5 have arrived, and for a constant stream the output
equals that constant from the 5th frame onward. -/
theorem temporal_smoother_contract :
    (∀ xs : List ℚ, smoothOutput xs = smoothMean (xs.drop (xs.length - 5))
      ∧ (dequeRun 5 xs).length = min xs.length 5)
    ∧ (∀ xs : List ℚ, xs.length ≤ 5 → smoothOutput xs = xs.sum / xs.length)
    ∧ (∀ (c : ℚ) (n : ℕ), 5 ≤ n → smoothOutput (List.replicate n c) = c) := by
  have h5 : (0:ℕ) < 5 := by norm_num
  refine ⟨fun xs => ⟨?_, ?_⟩, fun xs hx => ?_, fun c n hn => ?_⟩
  · rw [smoothOutput, dequeRun_eq_drop 5 h5]
  · exact dequeRun_length 5 h5 xs
  · rw [smoothOutput, dequeRun_eq_drop 5 h5]
    have h0 : xs.length - 5 = 0 := by omega
    rw [h0, List.drop_zero, smoothMean]
  · rw [smoothOutput, dequeRun_eq_drop 5 h5]
    simp only [List.length_replicate, List.drop_replicate]
    have h0 : n - (n - 5) = 5 := by omega
    rw [h0, smoothMean]
    simp [List.sum_replicate, nsmul_eq_mul]
    ring_nf

/-- Claim C4 witness: concrete instances of the two conditional parts — a
3-sample stream (fewer than 5) and a constant 7-sample stream. -/
theorem temporal_smoother_contract_witness :
    (([3, 3, 3] : List ℚ).length ≤ 5
      ∧ smoothOutput [3, 3, 3] = ([3, 3, 3] : List ℚ).sum / ([3, 3, 3] : List ℚ).length)
    ∧ (5 ≤ 7 ∧ smoothOutput (List.replicate 7 (2:ℚ)) = 2) :=
  ⟨⟨by norm_num, temporal_smoother_contract.2.1 [3, 3, 3] (by norm_num)⟩,
   ⟨by norm_num, temporal_smoother_contract.2.2 2 7 (by norm_num)⟩⟩

/- ----------------------------------------------------------------
   Blink detector geometry (spec §4.5)
   ---------------------------------------------------------------- -/

/-- Modelled from the spec: the Euclidean distance between two 2D landmark
points, as used by the Blink Detector of `small_interview_helper.py`
(missing from the sources), spec §4.5. -/
noncomputable def ptDist (p q : ℝ × ℝ) : ℝ :=
  Real.sqrt ((p.1 - q.1) ^ 2 + (p.2 - q.2) ^ 2)

/-- Uniform scaling of a 2D landmark point by `k`. -/
def scalePt (k : ℝ) (p : ℝ × ℝ) : ℝ × ℝ :=
  (k * p.1, k * p.2)

/-- Modelled from the spec: the per-eye Eye Aspect Ratio of the Blink
Detector of `small_interview_helper.py` (missing from the sources), spec
§4.5: `EAR = (d(p2,p6) + d(p3,p5)) / (2 * d(p1,p4))` over the six ordered
eye-contour landmarks. -/
noncomputable def earOfSix (p1 p2 p3 p4 p5 p6 : ℝ × ℝ) : ℝ :=
  (ptDist p2 p6 + ptDist p3 p5) / (2 * ptDist p1 p4)

theorem ptDist_scale (k : ℝ) (p q : ℝ × ℝ) :
    ptDist (scalePt k p) (scalePt k q) = |k| * ptDist p q := by
  unfold ptDist scalePt
  have h : (k * p.1 - k * q.1) ^ 2 + (k * p.2 - k * q.2) ^ 2
      = k ^ 2 * ((p.1 - q.1) ^ 2 + (p.2 - q.2) ^ 2) := by ring
  rw [h, Real.sqrt_mul (sq_nonneg k), Real.sqrt_sq_eq_abs]

/-- Claim C5: the per-eye EAR is scale-invariant: multiplying all six
landmark coordinates by a constant `k > 0` leaves the EAR unchanged,
provided the horizontal extent `d(p1,p4)` is nonzero. -/
theorem ear_scale_invariant (k : ℝ) (p1 p2 p3 p4 p5 p6 : ℝ × ℝ)
    (hk : 0 < k) (hd : ptDist p1 p4 ≠ 0) :
    earOfSix (scalePt k p1) (scalePt k p2) (scalePt k p3)
      (scalePt k p4) (scalePt k p5) (scalePt k p6)
    = earOfSix p1 p2 p3 p4 p5 p6 := by
  unfold earOfSix
  rw [ptDist_scale, ptDist_scale, ptDist_scale, abs_of_pos hk, ← mul_add,
    mul_left_comm]
  exact mul_div_mul_left _ _ (ne_of_gt hk)

/-- Claim C5 witness: concrete landmarks scaled by 2 keep the same EAR. -/
theorem ear_scale_invariant_witness :
    0 < (2:ℝ) ∧ ptDist (0, 0) (3, 0) ≠ 0
    ∧ earOfSix (scalePt 2 (0, 0)) (scalePt 2 (0, 1)) (scalePt 2 (1, 1))
        (scalePt 2 (3, 0)) (scalePt 2 (1, 0)) (scalePt 2 (0, -1))
      = earOfSix (0, 0) (0, 1) (1, 1) (3, 0) (1, 0) (0, -1) := by
  have hd : ptDist ((0:ℝ), (0:ℝ)) (3, 0) = 3 := by
    unfold ptDist
    norm_num
    rw [show (9:ℝ) = 3 ^ 2 by norm_num, Real.sqrt_sq (by norm_num)]
  refine ⟨by norm_num, ?_, ?_⟩
  · rw [hd]; norm_num
  · exact ear_scale_invariant 2 _ _ _ _ _ _ (by norm_num) (by rw [hd]; norm_num)

/- ----------------------------------------------------------------
   Frame pipeline (spec §4.7, §7)
   ---------------------------------------------------------------- -/

/-- Pipeline lifecycle states (spec §4.7). -/
inductive Phase
  | uninitialized
  | streaming
  | stopped
deriving DecidableEq

/-- One frame's pose angles in degrees. -/
structure Angles where
  yaw : ℚ
  pitch : ℚ
  roll : ℚ
deriving DecidableEq

/-- Outcome of landmark detection plus pose solving for one frame
(spec §4.1, §6, §7): a pose, or one of the two recoverable per-frame
errors. -/
inductive FrameResult
  | pose (a : Angles)
  | poseSolveError
  | noFaceDetected
deriving DecidableEq

/-- Per-session pipeline state (spec §3, §4.7): the three 5-entry smoothing
queues, the 150-entry attention window, and the skipped-frame counter. -/
structure PipeState where
  phase : Phase
  yawQ : List ℚ
  pitchQ : List ℚ
  rollQ : List ℚ
  window : List Bool
  skipped : Nat
deriving DecidableEq

/-- Successful-frame update: push the angles through the smoothing queues,
classify gaze on the smoothed yaw/pitch, and record the eye-contact sample
in the attention window. -/
def processPose (s : PipeState) (a : Angles) : PipeState :=
  let yq := dequePush 5 s.yawQ a.yaw
  let pq := dequePush 5 s.pitchQ a.pitch
  let rq := dequePush 5 s.rollQ a.roll
  { s with yawQ := yq, pitchQ := pq, rollQ := rq,
           window := dequePush 150 s.window
             (isEyeContact (smoothMean yq) (smoothMean pq)) }

/-- Modelled from the spec: the per-frame orchestration of the Frame
Pipeline of `small_interview_helper.py` (missing from the sources), spec
§4.7 and §7.  A first valid frame moves `uninitialized` to `streaming`;
while streaming, a solved pose updates the temporal state, and
`poseSolveError` / `noFaceDetected` are recoverable: the frame is skipped,
prior state is retained and the skip counter increments.  The function is
total, so no per-frame error escapes the pipeline as a hard failure. -/
def processFrame (s : PipeState) (f : FrameResult) : PipeState :=
  match s.phase, f with
  | .uninitialized, .pose a => processPose { s with phase := .streaming } a
  | .uninitialized, _ => s
  | .streaming, .pose a => processPose s a
  | .streaming, .poseSolveError => { s with skipped := s.skipped + 1 }
  | .streaming, .noFaceDetected => { s with skipped := s.skipped + 1 }
  | .stopped, _ => s

/-- Claim C6: while streaming, a frame whose pose solve fails (either
`poseSolveError` or `noFaceDetected`) leaves the smoothing queues and the
attention window unchanged, increments the skipped-frame counter by exactly
1, and keeps the pipeline in `streaming`; `processFrame` being a total
function into `PipeState`, the error never propagates as a hard failure. -/
theorem frame_failure_nonfatal (s : PipeState) (f : FrameResult)
    (hs : s.phase = .streaming)
    (hf : f = .poseSolveError ∨ f = .noFaceDetected) :
    (processFrame s f).yawQ = s.yawQ
    ∧ (processFrame s f).pitchQ = s.pitchQ
    ∧ (processFrame s f).rollQ = s.rollQ
    ∧ (processFrame s f).window = s.window
    ∧ (processFrame s f).skipped = s.skipped + 1
    ∧ (processFrame s f).phase = .streaming := by
  rcases hf with h | h <;> subst h <;> simp [processFrame, hs]

/-- Claim C6 witness: a concrete streaming state hit by a `noFaceDetected`
frame. -/
theorem frame_failure_nonfatal_witness :
    (⟨.streaming, [1], [2], [3], [true], 4⟩ : PipeState).phase = .streaming
    ∧ (processFrame ⟨.streaming, [1], [2], [3], [true], 4⟩ .noFaceDetected).window
        = [true]
    ∧ (processFrame ⟨.streaming, [1], [2], [3], [true], 4⟩ .noFaceDetected).skipped
        = 4 + 1 := by
  have h := frame_failure_nonfatal ⟨.streaming, [1], [2], [3], [true], 4⟩
    .noFaceDetected rfl (Or.inr rfl)
  exact ⟨rfl, h.2.2.2.1, h.2.2.2.2.1⟩

/- ----------------------------------------------------------------
   Confidence aggregator inputs (spec §4.6)
   ---------------------------------------------------------------- -/

/-- Clamp a rational to the unit interval. -/
def clamp01 (x : ℚ) : ℚ := max 0 (min 1 x)

/-- Modelled from the spec: the AttentionScore of the Confidence Aggregator
of `small_interview_helper.py` (missing from the sources), spec §4.6: the
mean of the attention window of eye-contact booleans, counting `true` as 1
and `false` as 0 (0 for an empty window, since division by zero is 0). -/
def attentionScore (w : List Bool) : ℚ :=
  (w.count true : ℚ) / w.length

/-- Modelled from the spec: the blink-rate normalization of the Confidence
Aggregator (spec §4.6): a linear penalty above a baseline blink rate,
clamped to [0,1]. -/
def normalizeBlink (rate baseline : ℚ) : ℚ :=
  clamp01 ((rate - baseline) / baseline)

/-- Modelled from the spec: `BlinkScore = 1 - normalize(blinkRate)`
(spec §4.6). -/
def blinkScore (rate baseline : ℚ) : ℚ :=
  1 - normalizeBlink rate baseline

/-- The seven FER emotion categories (README, planned emotion detection). -/
inductive Emotion
  | angry | disgust | fear | happy | sad | surprise | neutral
deriving DecidableEq

/-- Modelled from the spec: the EmotionScore of the Confidence Aggregator
(spec §4.6): `1.0` for Happy/Neutral, `0.5` otherwise, defaulting to `1.0`
when no emotion signal is available. -/
def emotionScore (e : Option Emotion) : ℚ :=
  match e with
  | none => 1
  | some .happy => 1
  | some .neutral => 1
  | some _ => 1/2

theorem clamp01_nonneg (x : ℚ) : 0 ≤ clamp01 x :=
  le_max_left 0 (min 1 x)

theorem clamp01_le_one (x : ℚ) : clamp01 x ≤ 1 :=
  max_le (by norm_num) (min_le_left 1 x)

/-- Claim C7: every input of the Confidence Aggregator lies in [0,1] — the
attention-window mean, the clamped blink score, and the emotion score
(which is 1 for Happy/Neutral and for a missing signal, 1/2 otherwise) —
so the recomputed ConfidenceScore lies in [0,1]. -/
theorem confidence_score_unit_interval :
    ∀ (w : List Bool) (rate baseline : ℚ) (e : Option Emotion),
      (0 ≤ attentionScore w ∧ attentionScore w ≤ 1)
      ∧ (0 ≤ blinkScore rate baseline ∧ blinkScore rate baseline ≤ 1)
      ∧ (emotionScore e = 1 ∨ emotionScore e = 1/2)
      ∧ emotionScore none = 1
      ∧ (0 ≤ confidenceScore (attentionScore w) (blinkScore rate baseline)
            (emotionScore e)
        ∧ confidenceScore (attentionScore w) (blinkScore rate baseline)
            (emotionScore e) ≤ 1) := by
  intro w rate baseline e
  have hattn : 0 ≤ attentionScore w ∧ attentionScore w ≤ 1 := by
    constructor
    · exact div_nonneg (by positivity) (by positivity)
    · rcases Nat.eq_zero_or_pos w.length with h0 | hpos
      · simp [attentionScore, h0]
      · rw [attentionScore, div_le_one (by exact_mod_cast hpos)]
        exact_mod_cast w.count_le_length true
  have hblink : 0 ≤ blinkScore rate baseline ∧ blinkScore rate baseline ≤ 1 := by
    rw [blinkScore, normalizeBlink]
    constructor
    · have := clamp01_le_one ((rate - baseline) / baseline)
      linarith
    · have := clamp01_nonneg ((rate - baseline) / baseline)
      linarith
  have hemo : emotionScore e = 1 ∨ emotionScore e = 1/2 := by
    rcases e with _ | em
    · exact Or.inl rfl
    · cases em <;> simp [emotionScore]
  have hemo01 : 0 ≤ emotionScore e ∧ emotionScore e ≤ 1 := by
    rcases hemo with h | h <;> rw [h] <;> norm_num
  refine ⟨hattn, hblink, hemo, rfl, ?_, ?_⟩
  · rw [confidenceScore]
    have := hattn.1; have := hblink.1; have := hemo01.1
    linarith
  · rw [confidenceScore]
    have := hattn.2; have := hblink.2; have := hemo01.2
    linarith

/- ----------------------------------------------------------------
   Frontend data model (firestore.ts interface via the README,
   InterviewContext.tsx, Interview.tsx, Report.tsx)
   ---------------------------------------------------------------- -/

/-- Speech-test result record (`firestore.ts` SpeechTestResult, README API
reference). -/
structure SpeechTestResult where
  fluency : ℚ
  pronunciation : ℚ
  fillerWords : ℕ
  pace : ℚ
  recordingDuration : ℚ
deriving DecidableEq

/-- One interview question with its result (`Interview.tsx`, README API
reference). -/
structure Question where
  title : String
  category : String
  difficulty : String
  question : String
  answer : String
  score : Option ℚ
  feedback : Option String
deriving DecidableEq

/-- The body-language aggregate persisted with a completed session
(`firestore.ts` BodyLanguageMetrics, README API reference). -/
structure BodyLanguageMetrics where
  eyeContact : ℚ
  avgBlinkRate : ℚ
  confidenceCurve : ℚ
  emotionTimeline : List String
deriving DecidableEq

/-- The live metrics snapshot of `Interview.tsx` (lines 45-52). -/
structure LiveMetrics where
  attention : ℚ
  eyeContact : ℚ
  blinkRate : ℚ
  emotion : String
  confidence : ℚ
  speakingPace : ℚ
deriving DecidableEq

/-- The final results passed to `completeSession`
(`InterviewContext.tsx` lines 122-129). -/
structure FinalResults where
  overallScore : ℚ
  technicalScore : ℚ
  communicationScore : ℚ
  bodyLanguageScore : ℚ
  bodyLanguage : BodyLanguageMetrics
  questions : List Question
deriving DecidableEq

/-- A stored interview session (`firestore.ts` InterviewSession, README API
reference); optional fields are `Option`. -/
structure InterviewSession where
  userId : String
  status : String
  speechTest : Option SpeechTestResult
  questions : Option (List Question)
  bodyLanguage : Option BodyLanguageMetrics
  overallScore : Option ℚ
  technicalScore : Option ℚ
  communicationScore : Option ℚ
  bodyLanguageScore : Option ℚ
deriving DecidableEq

/-- The body-language aggregate assembled on finishing the interview
(`Interview.tsx` lines 94-99). -/
def buildBodyLanguage (m : LiveMetrics) : BodyLanguageMetrics :=
  { eyeContact := m.eyeContact
    avgBlinkRate := m.blinkRate
    confidenceCurve := m.confidence
    emotionTimeline := ["Confident", "Focused", m.emotion] }

/- ----------------------------------------------------------------
   InterviewContext operations (InterviewContext.tsx)
   ---------------------------------------------------------------- -/

/-- The React state held by `InterviewProvider`
(`InterviewContext.tsx` lines 59-65). -/
structure CtxState where
  sessionId : Option String
  session : Option InterviewSession
  speechTestResults : Option SpeechTestResult
  interviewAnswers : List String
deriving DecidableEq

/-- The error thrown by `startNewSession` with no authenticated user. -/
def errNotLoggedIn : String := "User must be logged in"

/-- The error thrown by `saveInterview` / `completeSession` with no active
session id. -/
def errNoActiveSession : String := "No active session"

/-- `startNewSession` (`InterviewContext.tsx` lines 67-80): rejects when no
user is logged in, before touching any state; otherwise stores the fresh
session id obtained from `createInterviewSession` and resets the
in-progress data.  Returns the (possibly unchanged) React state paired with
the outcome. -/
def startNewSession (currentUser : Option String) (newSessionId : String)
    (s : CtxState) : CtxState × Except String String :=
  match currentUser with
  | none => (s, .error errNotLoggedIn)
  | some _ =>
      ({ s with sessionId := some newSessionId
                speechTestResults := none
                interviewAnswers := ["", "", ""] },
       .ok newSessionId)

/-- `saveInterview` (`InterviewContext.tsx` lines 114-120): rejects when no
session is active; otherwise persists through `saveInterviewResults`
without touching the local state. -/
def saveInterview (s : CtxState) (questions : List Question)
    (liveMetrics : Option LiveMetrics) : CtxState × Except String Unit :=
  match s.sessionId with
  | none => (s, .error errNoActiveSession)
  | some _ => (s, .ok ())

/-- `loadSession` (`InterviewContext.tsx` lines 82-99) applied to a session
found in the store: records the session and its id, and adopts its speech
test and answers when present. -/
def loadSessionApply (s : CtxState) (id : String)
    (loaded : InterviewSession) : CtxState :=
  { s with
    session := some loaded
    sessionId := some id
    speechTestResults :=
      match loaded.speechTest with
      | some st => some st
      | none => s.speechTestResults
    interviewAnswers :=
      match loaded.questions with
      | some qs => qs.map (fun q => q.answer)
      | none => s.interviewAnswers }

/-- `completeSession` (`InterviewContext.tsx` lines 122-135): rejects when
no session is active, before touching any state; otherwise persists
`finalResults` through `completeInterviewSession` and reloads the session.
The success payload is the record handed to the persistence layer;
`reloaded` stands for the session returned by `getInterviewSession` during
the reload. -/
def completeSession (s : CtxState) (finalResults : FinalResults)
    (reloaded : InterviewSession) : CtxState × Except String FinalResults :=
  match s.sessionId with
  | none => (s, .error errNoActiveSession)
  | some sid => (loadSessionApply s sid reloaded, .ok finalResults)

/- ----------------------------------------------------------------
   Report page score fallbacks (Report.tsx)
   ---------------------------------------------------------------- -/

/-- JavaScript `a || b` for an optional numeric `a`: `undefined`, `null`
and `0` are falsy and select the default (`Report.tsx` lines 612-618). -/
def jsOr (v : Option ℚ) (d : ℚ) : ℚ :=
  match v with
  | none => d
  | some x => if x = 0 then d else x

/-- The four category scores of the report page. -/
structure ReportScores where
  overall : ℚ
  technical : ℚ
  communication : ℚ
  bodyLanguage : ℚ
deriving DecidableEq

/-- The score values computed once by the `Report` component
(`Report.tsx` lines 612-618) and used both for display and, unchanged, for
the PDF session object of `handleDownloadPDF` (lines 669-695): each falls
back to a built-in default through JS truthiness. -/
def reportScores (session : Option InterviewSession) : ReportScores :=
  { overall := jsOr (session.bind (fun s => s.overallScore)) 82
    technical := jsOr (session.bind (fun s => s.technicalScore)) 78
    communication := jsOr (session.bind (fun s => s.communicationScore)) 85
    bodyLanguage := jsOr (session.bind (fun s => s.bodyLanguageScore)) 80 }

theorem jsOr_ne_zero (v : Option ℚ) (d : ℚ) (hd : d ≠ 0) : jsOr v d ≠ 0 := by
  match v with
  | none => exact hd
  | some x => by_cases h : x = 0 <;> simp [jsOr, h, hd]

/- ----------------------------------------------------------------
   Claims C8 - C10
   ---------------------------------------------------------------- -/

/-- Claim C8: on finishing the interview, the session-level aggregate
persisted through `completeSession` carries a body-language record of
exactly four components — the average eye-contact percentage, the average
blink rate, a confidence summary value, and an ordered sequence of emotion
labels — as built by `handleNextQuestion`. -/
theorem session_aggregate_shape (m : LiveMetrics) (s : CtxState)
    (fr : FinalResults) (reloaded : InterviewSession) (sid : String)
    (hs : s.sessionId = some sid) :
    (completeSession s { fr with bodyLanguage := buildBodyLanguage m }
        reloaded).2
      = .ok { fr with bodyLanguage := buildBodyLanguage m }
    ∧ buildBodyLanguage m
      = { eyeContact := m.eyeContact
          avgBlinkRate := m.blinkRate
          confidenceCurve := m.confidence
          emotionTimeline := ["Confident", "Focused", m.emotion] } := by
  constructor
  · rw [completeSession, hs]
  · rfl

/-- Claim C8 witness: a concrete active session whose completion persists
the four-component aggregate. -/
theorem session_aggregate_shape_witness :
    (⟨some "sid1", none, none, []⟩ : CtxState).sessionId = some "sid1"
    ∧ (completeSession ⟨some "sid1", none, none, []⟩
        { overallScore := 80, technicalScore := 80, communicationScore := 80,
          bodyLanguageScore := 80,
          bodyLanguage := buildBodyLanguage ⟨85, 78, 15, "Confident", 82, 145⟩,
          questions := [] }
        ⟨"u", "completed", none, none, none, none, none, none, none⟩).2
      = .ok { overallScore := 80, technicalScore := 80,
              communicationScore := 80, bodyLanguageScore := 80,
              bodyLanguage := buildBodyLanguage ⟨85, 78, 15, "Confident", 82, 145⟩,
              questions := [] } := by
  have h := session_aggregate_shape ⟨85, 78, 15, "Confident", 82, 145⟩
    ⟨some "sid1", none, none, []⟩
    { overallScore := 80, technicalScore := 80, communicationScore := 80,
      bodyLanguageScore := 80,
      bodyLanguage := buildBodyLanguage ⟨85, 78, 15, "Confident", 82, 145⟩,
      questions := [] }
    ⟨"u", "completed", none, none, none, none, none, none, none⟩ "sid1" rfl
  exact ⟨rfl, h.1⟩

/-- Claim C9: `startNewSession` rejects with "User must be logged in" when
no user is authenticated, and `saveInterview` / `completeSession` reject
with "No active session" when `sessionId` is null; in each error case the
returned state is exactly the input state — nothing is modified. -/
theorem context_error_handling :
    (∀ (newId : String) (s : CtxState),
        startNewSession none newId s = (s, .error errNotLoggedIn)
        ∧ errNotLoggedIn = "User must be logged in")
    ∧ (∀ (s : CtxState) (qs : List Question) (m : Option LiveMetrics),
        s.sessionId = none →
        saveInterview s qs m = (s, .error errNoActiveSession)
        ∧ errNoActiveSession = "No active session")
    ∧ (∀ (s : CtxState) (fr : FinalResults) (r : InterviewSession),
        s.sessionId = none →
        completeSession s fr r = (s, .error errNoActiveSession)) := by
  refine ⟨fun newId s => ⟨rfl, rfl⟩, fun s qs m h => ⟨?_, rfl⟩,
    fun s fr r h => ?_⟩
  · rw [saveInterview, h]
  · rw [completeSession, h]

/-- Claim C9 witness: the three rejections on a concrete state with no
session id and no user. -/
theorem context_error_handling_witness :
    startNewSession none "n1" ⟨none, none, none, []⟩
      = (⟨none, none, none, []⟩, .error errNotLoggedIn)
    ∧ saveInterview ⟨none, none, none, []⟩ [] none
      = (⟨none, none, none, []⟩, .error errNoActiveSession)
    ∧ completeSession ⟨none, none, none, []⟩
        { overallScore := 1, technicalScore := 1, communicationScore := 1,
          bodyLanguageScore := 1,
          bodyLanguage := ⟨1, 1, 1, []⟩, questions := [] }
        ⟨"u", "completed", none, none, none, none, none, none, none⟩
      = (⟨none, none, none, []⟩, .error errNoActiveSession) :=
  ⟨(context_error_handling.1 "n1" ⟨none, none, none, []⟩).1,
   (context_error_handling.2.1 ⟨none, none, none, []⟩ [] none rfl).1,
   context_error_handling.2.2 ⟨none, none, none, []⟩ _ _ rfl⟩

/-- Claim C10: every stored session score equal to 0 is replaced by the
built-in default (82, 78, 85, 80 respectively) in the displayed and
PDF-exported report, because the `||` fallback treats 0 as falsy; hence a
genuine zero score is never displayed — every reported score is nonzero. -/
theorem report_zero_score_fallback :
    (∀ s : InterviewSession,
        (s.overallScore = some 0 → (reportScores (some s)).overall = 82)
        ∧ (s.technicalScore = some 0 → (reportScores (some s)).technical = 78)
        ∧ (s.communicationScore = some 0 →
            (reportScores (some s)).communication = 85)
        ∧ (s.bodyLanguageScore = some 0 →
            (reportScores (some s)).bodyLanguage = 80))
    ∧ (∀ sess : Option InterviewSession,
        (reportScores sess).overall ≠ 0
        ∧ (reportScores sess).technical ≠ 0
        ∧ (reportScores sess).communication ≠ 0
        ∧ (reportScores sess).bodyLanguage ≠ 0) := by
  constructor
  · intro s
    refine ⟨fun h => ?_, fun h => ?_, fun h => ?_, fun h => ?_⟩ <;>
      simp [reportScores, jsOr, h]
  · intro sess
    exact ⟨jsOr_ne_zero _ _ (by norm_num), jsOr_ne_zero _ _ (by norm_num),
      jsOr_ne_zero _ _ (by norm_num), jsOr_ne_zero _ _ (by norm_num)⟩

/-- Claim C10 witness: a stored session whose four scores are all genuinely
0 is displayed as (82, 78, 85, 80). -/
theorem report_zero_score_fallback_witness :
    reportScores (some ⟨"u", "completed", none, none, none,
        some 0, some 0, some 0, some 0⟩)
      = ⟨82, 78, 85, 80⟩ := by
  have h := report_zero_score_fallback.1
    ⟨"u", "completed", none, none, none, some 0, some 0, some 0, some 0⟩
  have h1 := h.1 rfl
  have h2 := h.2.1 rfl
  have h3 := h.2.2.1 rfl
  have h4 := h.2.2.2 rfl
  cases hr : reportScores (some ⟨"u", "completed", none, none, none,
      some 0, some 0, some 0, some 0⟩)
  rw [hr] at h1 h2 h3 h4
  simp only at h1 h2 h3 h4
  rw [h1, h2, h3, h4]
